import Mathlib

/-!
Verification of the PlebChat payment backend against its specification.

The development shallowly embeds the payment-relevant functions of the
repository: the Cashu token service (`src/backend/src/services/cashu.py`),
the LNURL fee estimator (`src/backend/src/services/lnurl.py`), the NIP-98
request verifier (`src/backend/src/auth/nip98.py`), and the redeem-before-call
payment FSM (`src/agents/src/plebchat/graph.py`).  External collaborators
(the cashu wallet library, the mint, the HTTP backend, the crypto primitives)
are modelled as explicit oracle parameters; everything the repository itself
computes is translated directly from the source.
-/

namespace PlebChat

/-! ## String helpers modelling the Python string operations used in the source -/

/-- Test whether the character list `s` begins with the pattern `pat`
(model of Python `str.startswith` on exploded strings). -/
def charsBegin : List Char → List Char → Bool
  | [], _ => true
  | _ :: _, [] => false
  | p :: ps, c :: cs => p == c && charsBegin ps cs

/-- Test whether `pat` occurs as a contiguous run somewhere inside `s`
(model of Python `pat in s`). -/
def charsInside : List Char → List Char → Bool
  | pat, [] => pat.isEmpty
  | pat, c :: cs => charsBegin pat (c :: cs) || charsInside pat cs

/-- Model of Python `s.startswith(pat)`. -/
def strBegins (s pat : String) : Bool := charsBegin pat.data s.data

/-- Model of Python substring membership `pat in s`. -/
def strInside (s pat : String) : Bool := charsInside pat.data s.data

/-- Model of Python `s.lower()` (the messages involved are ASCII). -/
def strLower (s : String) : String := ⟨s.data.map Char.toLower⟩

/-- Model of Python `s.upper()`. -/
def strUpper (s : String) : String := ⟨s.data.map Char.toUpper⟩

/-- Model of Python `s.rstrip('/')`: remove every trailing slash. -/
def rstripSlashes (s : String) : String :=
  ⟨(s.data.reverse.dropWhile (fun c => c == '/')).reverse⟩

/-! ## Data model of parsed Cashu tokens (`cashu.py`) -/

/-- One proof (denominated signed unit) inside a parsed token; `id` is the
keyset identifier the proof was signed under. -/
structure CashuProof where
  id : String
  amount : Nat
deriving DecidableEq

/-- Result of parsing a token string with the wallet library helper
`deserialize_token_from_string`: the declared mint URL (empty string models a
missing/falsy mint) and the list of proofs. -/
structure ParsedToken where
  mint : String
  proofs : List CashuProof
deriving DecidableEq

/-- Model of the library function `deserialize_token_from_string`: the library
is external to the repository, so parsing is a parameter of the embedding.
`Except.error e` models a raised exception with message `e`. -/
abbrev TokenCodec := String → Except String ParsedToken

/-- Model of `cashu.core.helpers.sum_proofs`: sum of proof denominations. -/
def sum_proofs (proofs : List CashuProof) : Nat :=
  (proofs.map (fun p => p.amount)).sum

/-- Mirrors the `TokenResult` dataclass of `cashu.py`. -/
structure TokenResult where
  success : Bool
  amount : Nat := 0
  error : Option String := none
  mint : Option String := none
deriving DecidableEq

/-! ## `CashuService.validate_token_format` and `get_token_amount` -/

/-- Mirrors `CashuService.validate_token_format` (`cashu.py:297-325`).
`trusted` models `self._trusted_mints` (as a list, standing for the set),
`parse` the external token deserializer.  Returns `(is_valid, error_message)`. -/
def validate_token_format (trusted : List String) (parse : TokenCodec)
    (token : String) (check_mint : Bool) : Bool × Option String :=
  if token = "" then (false, some "Empty token")
  else if !(strBegins token "cashuA" || strBegins token "cashuB") then
    (false, some "Invalid token format (must start with cashuA or cashuB)")
  else
    match parse token with
    | .error e => (false, some ("Failed to parse token: " ++ e))
    | .ok parsed =>
      if parsed.proofs.isEmpty then (false, some "Token contains no proofs")
      else if check_mint && parsed.mint != "" && !(trusted.contains parsed.mint) then
        (false, some ("Token from untrusted mint: " ++ parsed.mint
          ++ ". Trusted mints: " ++ String.intercalate ", " trusted))
      else (true, none)

/-- Mirrors `CashuService.get_token_amount` (`cashu.py:338-356`). -/
def get_token_amount (parse : TokenCodec) (token : String) : Nat × Option String :=
  if token = "" then (0, some "Empty token")
  else
    match parse token with
    | .error e => (0, some ("Failed to parse token: " ++ e))
    | .ok parsed =>
      if parsed.proofs.isEmpty then (0, some "Token contains no proofs")
      else (sum_proofs parsed.proofs, none)

/-! ## `CashuService.receive_token` up to the redemption lock -/

/-- Outcome of `receive_token` up to the point where the redemption lock is
taken: either an early `TokenResult` produced before any lock acquisition or
network call, or the decision to enter the locked `_redeem_token_internal`
section with the given token. -/
inductive ReceiveGate
  | early (result : TokenResult)
  | locked (token : String)
deriving DecidableEq

/-- Mirrors the pre-lock portion of `CashuService.receive_token`
(`cashu.py:358-384`).  `initialized` models
`self._initialized and self._wallet is not None`. -/
def receive_token (initialized : Bool) (trusted : List String) (parse : TokenCodec)
    (token : String) : ReceiveGate :=
  if !initialized then .early { success := false, error := some "Service not initialized" }
  else
    match validate_token_format trusted parse token true with
    | (false, err) => .early { success := false, error := err }
    | (true, _) => .locked token

/-! ## `CashuService.check_token_spent` -/

/-- Response of the mint proof-state query `wallet.check_proof_state`:
the `spent` flag of each returned state, or the message of a raised
exception.  External transport, hence a parameter. -/
inductive ProofStateQuery
  | ok (spentFlags : List Bool)
  | raised (msg : String)
deriving DecidableEq

/-- Mirrors `CashuService.check_token_spent` (`cashu.py:552-563`): `True` when
uninitialized, when parsing raises, or when the mint query raises; otherwise
`any(state.spent for state in proof_states.states)`. -/
def check_token_spent (initialized : Bool) (parse : TokenCodec)
    (query : ProofStateQuery) (token : String) : Bool :=
  if !initialized then true
  else
    match parse token with
    | .error _ => true
    | .ok _ =>
      match query with
      | .raised _ => true
      | .ok spentFlags => spentFlags.any id

/-! ## `_redeem_token_internal` with counter-conflict recovery (`cashu.py:386-494`) -/

/-- Outcome of one execution of the `try` block of `_redeem_token_internal`
(parse, keyset loading and `wallet.redeem` combined): the redeemed amount the
wallet kept, or the message of the exception raised inside the block. -/
inductive RedeemStep
  | ok (amount : Nat)
  | raised (msg : String)
deriving DecidableEq

/-- Oracle answers of the mint/wallet library for one redemption run:
`attempts i` is the outcome of the `(i+1)`-th execution of the try block and
`recoveries i` the boolean result of the `(i+1)`-th call to
`_attempt_counter_recovery` (which runs `restore_tokens_for_keyset` and
returns `False` on any exception or missing keyset). -/
structure RedeemEnv where
  attempts : Nat → RedeemStep
  recoveries : Nat → Bool

/-- Python classification of a counter conflict (`cashu.py:434`):
`"outputs have already been signed" in msg.lower() or "already signed" in msg.lower()`. -/
def isCounterConflictMsg (msg : String) : Bool :=
  strInside (strLower msg) "outputs have already been signed"
    || strInside (strLower msg) "already signed"

/-- Python classification of an already-spent error (`cashu.py:453`). -/
def isSpentMsg (msg : String) : Bool :=
  strInside (strLower msg) "already spent" || strInside (strLower msg) "spent"

/-- Python classification of an invalid-proof error (`cashu.py:455`). -/
def isInvalidMsg (msg : String) : Bool :=
  strInside (strLower msg) "invalid"

/-- Trace of one run of `_redeem_token_internal`: the returned `TokenResult`,
the number of executions of the try block (on-the-wire redemption attempts),
the number of `_attempt_counter_recovery` calls performed, and whether the
token was logged with `UNREDEEMED TOKEN FOR MANUAL RECOVERY`. -/
structure RedeemTrace where
  result : TokenResult
  redeemCalls : Nat
  recoveryCalls : Nat
  manualRecoveryLogged : Bool
deriving DecidableEq

/-- Trace of a successful try block (`cashu.py:423-427`); the `mint` field is
`token_mint or self._mint_url`. -/
def redeem_success_trace (tokenMint mintUrl : String) (amount : Nat) : RedeemTrace :=
  { result := { success := true, amount := amount,
                mint := some (if tokenMint = "" then mintUrl else tokenMint) },
    redeemCalls := 1, recoveryCalls := 0, manualRecoveryLogged := false }

/-- Terminal `TokenResult` of the counter-conflict branch (`cashu.py:448-451`). -/
def counterSyncResult : TokenResult :=
  { success := false,
    error := some "Counter sync error - please try again or contact support" }

/-- Shared classification of the non-conflict failure branches
(`cashu.py:453-458`). -/
def redeem_other_failure (msg : String) : TokenResult :=
  if isSpentMsg msg then { success := false, error := some "Token already spent" }
  else if isInvalidMsg msg then { success := false, error := some "Invalid token or proofs" }
  else { success := false, error := some ("Redemption failed: " ++ msg) }

/-- Mirrors the retry call `_redeem_token_internal(token, is_retry=True)`
(`cashu.py:386-458` with `is_retry` true): a further counter conflict performs
no recovery pass and is terminal, logging the token for manual recovery. -/
def redeem_token_internal_retry (env : RedeemEnv) (tokenMint mintUrl : String)
    (aIdx : Nat) : RedeemTrace :=
  match env.attempts aIdx with
  | .ok amount => redeem_success_trace tokenMint mintUrl amount
  | .raised msg =>
    if isCounterConflictMsg msg then
      { result := counterSyncResult,
        redeemCalls := 1, recoveryCalls := 0, manualRecoveryLogged := true }
    else
      { result := redeem_other_failure msg,
        redeemCalls := 1, recoveryCalls := 0, manualRecoveryLogged := false }

/-- Mirrors the initial call `_redeem_token_internal(token)` with
`is_retry=False` (`cashu.py:386-458`).  `tokenMint` is `parsed_token.mint`
(empty string models a falsy value), `mintUrl` is `self._mint_url`, `aIdx` and
`rIdx` count the oracle answers already consumed.  On a counter conflict it
runs `_attempt_counter_recovery` once and, if that succeeds, re-enters the
body once with `is_retry=True`. -/
def redeem_token_internal (env : RedeemEnv) (tokenMint mintUrl : String)
    (aIdx rIdx : Nat) : RedeemTrace :=
  match env.attempts aIdx with
  | .ok amount => redeem_success_trace tokenMint mintUrl amount
  | .raised msg =>
    if isCounterConflictMsg msg then
      if env.recoveries rIdx then
        let t := redeem_token_internal_retry env tokenMint mintUrl (aIdx + 1)
        { t with redeemCalls := t.redeemCalls + 1, recoveryCalls := t.recoveryCalls + 1 }
      else
        { result := counterSyncResult,
          redeemCalls := 1, recoveryCalls := 1, manualRecoveryLogged := true }
    else
      { result := redeem_other_failure msg,
        redeemCalls := 1, recoveryCalls := 0, manualRecoveryLogged := false }

/-! ## Lightning fee estimate and payout gate (`lnurl.py:188-199`, `cashu.py:599-643`) -/

/-- Exact value of Python `math.ceil(a / b)` for integer `a` and positive
integer `b`: the negated floor division of the negation. -/
def mathCeilDiv (a b : Int) : Int := -(Int.fdiv (-a) b)

/-- Mirrors `estimate_lightning_fee` (`lnurl.py:188-199`):
`max(math.ceil(amount_sats * fee_ppm / 1_000_000), 2)`.  Python evaluates the
division in real arithmetic before taking the ceiling; the embedding uses the
exact integer ceiling `mathCeilDiv`. -/
def estimate_lightning_fee (amount_sats fee_ppm : Int) : Int :=
  let fee := mathCeilDiv (amount_sats * fee_ppm) 1000000
  max fee 2

/-- Mirrors the `PayoutResult` dataclass of `cashu.py`. -/
structure PayoutResult where
  success : Bool
  amount_sent : Int := 0
  fee_paid : Int := 0
  error : Option String := none
deriving DecidableEq

/-- Outcome of `payout_to_lightning` up to the point where the redemption lock
is taken: either an early `PayoutResult` produced before any lock acquisition
or network call (so the wallet state is untouched), or the decision to enter
the locked `_payout_internal` section with the computed total and net amounts. -/
inductive PayoutGate
  | early (result : PayoutResult)
  | locked (total_amount net_amount : Int)
deriving DecidableEq

/-- Mirrors the pre-lock portion of `CashuService.payout_to_lightning`
(`cashu.py:599-643`).  Amounts are `Int` as in Python; `balance` models
`self.balance`, `payout_ln_address` models `self._payout_ln_address`, and the
optional arguments mirror the Python keyword arguments. -/
def payout_to_lightning (initialized : Bool) (payout_ln_address : String)
    (balance : Int) (amount : Option Int) (ln_address : Option String) : PayoutGate :=
  if !initialized then .early { success := false, error := some "Service not initialized" }
  else
    let target_address :=
      match ln_address with
      | some a => if a = "" then payout_ln_address else a
      | none => payout_ln_address
    if target_address = "" then
      .early { success := false, error := some "No Lightning address configured" }
    else
      let payout_amount := amount.getD balance
      if payout_amount ≤ 0 then
        .early { success := false, error := some "No funds to payout" }
      else if payout_amount > balance then
        .early { success := false,
                 error := some ("Insufficient balance: " ++ toString balance ++ " sats") }
      else
        let estimated_fee := estimate_lightning_fee payout_amount 10000
        if payout_amount ≤ estimated_fee then
          .early { success := false,
                   error := some ("Amount too small to cover estimated fee ("
                     ++ toString estimated_fee ++ " sats)") }
        else
          .locked payout_amount (payout_amount - estimated_fee)

/-- Mirrors the millisat conversion in `_payout_internal` (`cashu.py:670`):
`net_amount_msat = net_amount * 1000`, the amount requested from the LNURL
callback. -/
def payout_invoice_request_msat (net_amount : Int) : Int := net_amount * 1000

/-! ## NIP-98 verifier (`nip98.py:154-261`) -/

/-- Mirrors the `AuthResult` dataclass of `nip98.py`. -/
structure AuthResult where
  valid : Bool
  pubkey : Option String := none
  npub : Option String := none
  error : Option String := none
deriving DecidableEq

/-- Decoded Nostr event as consumed after the base64/JSON stage.  `kind`
models `event.get("kind")`, `created_at` the value of
`event.get("created_at", 0)`, `pubkey` models `event.get("pubkey")`
(`""` standing for a present-but-falsy value).  The `id` and `sig` fields are
consumed only by the signature oracle. -/
structure NostrEvent where
  kind : Option Int
  created_at : Int
  tags : List (List String)
  pubkey : Option String
deriving DecidableEq

/-- Outcome of the header-scheme check plus base64/JSON decoding
(`nip98.py:176-190`): on failure the early `AuthResult` (either
`Invalid auth header format` or `Failed to decode event: ...`), otherwise the
decoded event. -/
inductive DecodeStage
  | failed (result : AuthResult)
  | decoded (event : NostrEvent)

/-- Mirrors `get_tag_value` (`nip98.py:138-151`): the second entry of the
first tag of length at least 2 whose head equals `name`. -/
def get_tag_value (tags : List (List String)) (name : String) : Option String :=
  match tags with
  | [] => none
  | tag :: rest =>
    if 2 ≤ tag.length ∧ tag.headD "" = name then some (tag.getD 1 "")
    else get_tag_value rest name

/-- Python rendering of `event.get("kind")` inside the error f-string. -/
def pyOptIntRepr : Option Int → String
  | none => "None"
  | some k => toString k

/-- Mirrors `verify_nip98_event` (`nip98.py:154-261`) from the decode stage
onwards.  External computations are oracle parameters: `sigOk` models
`verify_event_signature(event)` (SHA-256 plus Schnorr), `now` models
`int(time.time())`, `body` the optional request body (`some ""` standing for
present-but-empty bytes), `sha256Hex` the hex SHA-256, `npubToHexOracle` and
`hexToNpubOracle` the bech32 conversions. -/
def verify_nip98_event (stage : DecodeStage) (sigOk : Bool) (now : Int)
    (url method : String) (body : Option String) (sha256Hex : String → String)
    (npubToHexOracle hexToNpubOracle : String → Option String)
    (allowed_pubkeys : List String) (expiry_seconds : Int) : AuthResult :=
  match stage with
  | .failed r => r
  | .decoded event =>
    if event.kind ≠ some 27235 then
      { valid := false, error := some ("Invalid event kind: " ++ pyOptIntRepr event.kind) }
    else if !sigOk then
      { valid := false, error := some "Invalid event signature" }
    else if now - event.created_at > expiry_seconds then
      { valid := false, error := some "Event expired" }
    else if event.created_at > now + 60 then
      { valid := false, error := some "Event from the future" }
    else
      let event_url := (get_tag_value event.tags "u").getD ""
      if event_url = "" then
        { valid := false, error := some "Missing \x27u\x27 tag" }
      else if rstripSlashes event_url ≠ rstripSlashes url then
        { valid := false, error := some ("URL mismatch: " ++ event_url ++ " != " ++ url) }
      else
        let event_method := (get_tag_value event.tags "method").getD ""
        if event_method = "" then
          { valid := false, error := some "Missing \x27method\x27 tag" }
        else if strUpper event_method ≠ strUpper method then
          { valid := false,
            error := some ("Method mismatch: " ++ event_method ++ " != " ++ method) }
        else
          let payloadMismatch : Bool :=
            match body with
            | none => false
            | some b =>
              if b = "" then false
              else
                match get_tag_value event.tags "payload" with
                | none => false
                | some p => p != "" && p != sha256Hex b
          if payloadMismatch then
            { valid := false, error := some "Payload hash mismatch" }
          else
            let pubkey := event.pubkey.getD ""
            if pubkey = "" then
              { valid := false, error := some "Missing pubkey" }
            else
              let normalized_allowed := allowed_pubkeys.filterMap (fun pk =>
                if strBegins pk "npub" then npubToHexOracle pk else some pk)
              if allowed_pubkeys ≠ [] ∧ ¬ normalized_allowed.contains pubkey then
                { valid := false, error := some "Pubkey not authorized" }
              else
                { valid := true, pubkey := some pubkey, npub := hexToNpubOracle pubkey }

/-! ## Redeem-before-call payment FSM (`src/agents/src/plebchat/graph.py`) -/

/-- One row of the `AGENT_PRICING` table: cost of the first message and of
each additional message, in sats. -/
structure AgentPricing where
  firstCost : Nat
  additionalCost : Nat
deriving DecidableEq

/-- Mirrors the `AGENT_PRICING` dict (`graph.py:128-134`). -/
def AGENT_PRICING : String → Option AgentPricing := fun agent_id =>
  if agent_id = "plebchat" then some ⟨50, 10⟩
  else if agent_id = "deep_research" then some ⟨150, 200⟩
  else if agent_id = "socratic_coach" then some ⟨50, 0⟩
  else if agent_id = "tldr_summarizer" then some ⟨150, 200⟩
  else if agent_id = "nsfw" then some ⟨70, 20⟩
  else none

/-- Mirrors `DEFAULT_PRICING` (`graph.py:137`). -/
def DEFAULT_PRICING : AgentPricing := ⟨50, 10⟩

/-- Mirrors `DEBUG_MODE_COST` (`graph.py:125`). -/
def DEBUG_MODE_COST : Nat := 1

/-- Mirrors `get_required_amount` (`graph.py:140-155`); `debugMode` models the
environment-derived `DEBUG_MODE` flag. -/
def get_required_amount (debugMode : Bool) (agent_id : String)
    (is_first_message : Bool) : Nat :=
  if debugMode then DEBUG_MODE_COST
  else
    let pricing := (AGENT_PRICING agent_id).getD DEFAULT_PRICING
    if is_first_message then pricing.firstCost else pricing.additionalCost

/-- Parsed JSON body of a `200` response of the backend `/check` endpoint,
with the `get` defaults of the source already applied (`amount` defaults to
`0`, a missing `error` key is `none`). -/
structure CheckResponse where
  statusCode : Nat
  valid : Bool
  spent : Bool
  amount : Nat
  error : Option String
deriving DecidableEq

/-- Outcome of the HTTP POST to `/check` as seen by the agent: a response, a
timeout, or another raised exception. -/
inductive BackendCheck
  | http (resp : CheckResponse)
  | timeout
  | raised (msg : String)
deriving DecidableEq

/-- Mirrors `validate_token_with_backend` (`graph.py:163-215`): returns
`(is_valid, actual_amount, error_message)`. -/
def validate_token_with_backend (backend : BackendCheck) (required_amount : Nat) :
    Bool × Nat × Option String :=
  match backend with
  | .timeout => (false, 0, some "Payment service timeout")
  | .raised m => (false, 0, some ("Validation failed: " ++ m))
  | .http resp =>
    if resp.statusCode ≠ 200 then
      (false, 0, some ("Backend error: " ++ toString resp.statusCode))
    else if !resp.valid then
      (false, 0, some (resp.error.getD "Invalid token"))
    else if resp.spent then
      (false, 0, some "Token already spent")
    else if resp.amount < required_amount then
      (false, resp.amount, some ("Insufficient amount: " ++ toString resp.amount
        ++ " < " ++ toString required_amount ++ " sats required"))
    else
      (true, resp.amount, none)

/-- State fields written by `validate_payment_node` (the `run_id` bookkeeping
and logging side effects are omitted). -/
structure NodeUpdate where
  payment_validated : Bool
  payment_redeemed : Bool
  refund : Bool
  refund_token : Option String
  error : Option String
deriving DecidableEq

/-- Mirrors `validate_payment_node` (`graph.py:253-378`).  `payment` is the
`ecash_token` field of the state payment dict (`none` when the dict or the
field is missing, `some ""` when present but empty — both are falsy in
Python), `numHumanMessages` the number of `HumanMessage` entries, `backend`
the outcome of the `/check` call and `redeemOk` the boolean outcome of
`redeem_token_to_wallet` on the `/receive` call. -/
def validate_payment_node (debugMode : Bool) (payment : Option String)
    (numHumanMessages : Nat) (backend : BackendCheck) (redeemOk : Bool) : NodeUpdate :=
  match payment with
  | none =>
    { payment_validated := true, payment_redeemed := false, refund := false,
      refund_token := none, error := none }
  | some token =>
    if token = "" then
      { payment_validated := true, payment_redeemed := false, refund := false,
        refund_token := none, error := none }
    else
      let agent_id := "plebchat"
      let is_first_message : Bool := numHumanMessages ≤ 1
      let required_amount := get_required_amount debugMode agent_id is_first_message
      if strBegins token "cashu_debug_" || token == "debug" then
        { payment_validated := true, payment_redeemed := false, refund := false,
          refund_token := none, error := none }
      else
        match validate_token_with_backend backend required_amount with
        | (is_valid, _actual_amount, err) =>
          if !is_valid then
            { payment_validated := false, payment_redeemed := false, refund := true,
              refund_token := some token,
              error := some ("Payment validation failed: " ++ err.getD "None") }
          else if !redeemOk then
            { payment_validated := false, payment_redeemed := false, refund := true,
              refund_token := some token,
              error := some "Payment redemption failed. Your token has been returned." }
          else
            { payment_validated := true, payment_redeemed := true, refund := false,
              refund_token := none, error := none }

/-- Mirrors `route_after_validation` (`graph.py:486-490`):
`state.get("payment_validated", True)` decides between the `"agent"` node and
`"end"` (mapped to `END` by the conditional edge). -/
def route_after_validation (payment_validated : Option Bool) : String :=
  if payment_validated.getD true then "agent" else "end"

/-- Normalization as worded by the specification ("strip one trailing slash
from both sides"), stated only for comparison against the source's
`rstrip('/')`: removes exactly one trailing slash when one is present. -/
def specStripOneTrailingSlash (s : String) : String :=
  match s.data.reverse with
  | '/' :: rest => ⟨rest.reverse⟩
  | _ => s

/-! # Theorems -/

/-- Helper: appending a slash does not change the all-trailing-slash-stripped
value of a string. -/
theorem rstripSlashes_append_slash (u : String) :
    rstripSlashes (u ++ "/") = rstripSlashes u := by
  have h : (u ++ "/").data = u.data ++ ['/'] := by
    rw [String.data_append]
  unfold rstripSlashes
  rw [h]
  simp [List.dropWhile]

/-- C3: a token that parses successfully but declares a mint URL outside the
trusted set fails `validate_token_format` with `check_mint` enabled, whatever
its cryptographic contents, and `receive_token` returns a failure result
before acquiring the redemption lock or contacting the mint (the `.early`
constructor covers exactly the returns made before the `async with` block). -/
theorem untrusted_mint_rejected_before_lock (trusted : List String)
    (parse : TokenCodec) (token : String) (p : ParsedToken)
    (hp : parse token = .ok p) (hmint : p.mint ≠ "") (hout : p.mint ∉ trusted) :
    (validate_token_format trusted parse token true).1 = false ∧
    ∀ initialized, ∃ r, receive_token initialized trusted parse token = .early r ∧
      r.success = false := by
  have hval : ∃ msg, validate_token_format trusted parse token true = (false, msg) := by
    by_cases h0 : token = ""
    · exact ⟨some "Empty token", by simp [validate_token_format, h0]⟩
    · by_cases h1 : (strBegins token "cashuA" || strBegins token "cashuB") = true
      · by_cases h2 : p.proofs.isEmpty
        · exact ⟨some "Token contains no proofs",
            by simp [validate_token_format, h0, h1, hp, h2]⟩
        · exact ⟨some ("Token from untrusted mint: " ++ p.mint
              ++ ". Trusted mints: " ++ String.intercalate ", " trusted),
            by simp [validate_token_format, h0, h1, hp, h2, hmint, hout]⟩
      · exact ⟨some "Invalid token format (must start with cashuA or cashuB)",
          by simp [validate_token_format, h0, h1]⟩
  obtain ⟨msg, hmsg⟩ := hval
  refine ⟨by rw [hmsg], ?_⟩
  intro initialized
  cases initialized
  · exact ⟨{ success := false, error := some "Service not initialized" },
      by simp [receive_token], rfl⟩
  · exact ⟨{ success := false, error := msg },
      by simp [receive_token, hmsg], rfl⟩

/-- C5: `check_token_spent` is fail-closed: it reports `true` (spent) when
the service is uninitialized, when token parsing raises, and when the mint
proof-state query raises. -/
theorem check_token_spent_fail_closed (parse : TokenCodec) (query : ProofStateQuery)
    (token : String) :
    check_token_spent false parse query token = true ∧
    (∀ e, parse token = .error e → check_token_spent true parse query token = true) ∧
    (∀ m, query = .raised m → check_token_spent true parse query token = true) := by
  refine ⟨by simp [check_token_spent], ?_, ?_⟩
  · intro e he
    simp [check_token_spent, he]
  · intro m hm
    cases hp : parse token with
    | error e => simp [check_token_spent, hp]
    | ok q => simp [check_token_spent, hp, hm]

/-- Witness for `check_token_spent_fail_closed` at concrete inputs. -/
theorem check_token_spent_fail_closed_witness :
    check_token_spent false (fun _ => .error "bad") (.raised "boom") "cashuAx" = true ∧
    check_token_spent true (fun _ => .error "bad") (.ok [false]) "cashuAx" = true ∧
    check_token_spent true (fun _ => .ok ⟨"m", [⟨"k", 1⟩]⟩) (.raised "boom") "cashuAx" = true :=
  ⟨(check_token_spent_fail_closed (fun _ => .error "bad") (.raised "boom") "cashuAx").1,
   (check_token_spent_fail_closed (fun _ => .error "bad") (.ok [false]) "cashuAx").2.1 "bad" rfl,
   (check_token_spent_fail_closed (fun _ => .ok ⟨"m", [⟨"k", 1⟩]⟩) (.raised "boom")
     "cashuAx").2.2 "boom" rfl⟩

/-- C8: on a successfully parsed token and a successful mint query,
`check_token_spent` returns the existential disjunction of the returned spent
flags — one spent proof suffices, all-spent is not required. -/
theorem check_token_spent_existential (parse : TokenCodec) (token : String)
    (p : ParsedToken) (flags : List Bool) (hp : parse token = .ok p) :
    check_token_spent true parse (.ok flags) token = flags.any id ∧
    (flags.any id = true ↔ ∃ f ∈ flags, f = true) := by
  constructor
  · simp [check_token_spent, hp]
  · simp [List.any_eq_true, id]

/-- Witness for `check_token_spent_existential`: with one of two flags spent
the token is reported spent. -/
theorem check_token_spent_existential_witness :
    check_token_spent true (fun _ => .ok ⟨"m", [⟨"k", 1⟩, ⟨"k", 2⟩]⟩)
      (.ok [true, false]) "cashuAx" = [true, false].any id ∧
    ([true, false].any id ↔ ∃ f ∈ [true, false], f = true) :=
  check_token_spent_existential (fun _ => .ok ⟨"m", [⟨"k", 1⟩, ⟨"k", 2⟩]⟩)
    "cashuAx" ⟨"m", [⟨"k", 1⟩, ⟨"k", 2⟩]⟩ [true, false] rfl

/-- C10: a well-prefixed token that parses to an empty proof list is rejected
by `validate_token_format` and reported as zero-valued by `get_token_amount`,
with the `Token contains no proofs` message in both cases. -/
theorem empty_proof_list_rejected (trusted : List String) (parse : TokenCodec)
    (token : String) (p : ParsedToken) (check_mint : Bool)
    (hpre : (strBegins token "cashuA" || strBegins token "cashuB") = true)
    (hp : parse token = .ok p) (hnil : p.proofs = []) :
    validate_token_format trusted parse token check_mint
      = (false, some "Token contains no proofs") ∧
    get_token_amount parse token = (0, some "Token contains no proofs") := by
  have h0 : token ≠ "" := by
    rintro rfl
    revert hpre
    decide
  constructor
  · simp [validate_token_format, h0, hpre, hp, hnil]
  · simp [get_token_amount, h0, hp, hnil]

/-- Witness for `untrusted_mint_rejected_before_lock` at a concrete token from
an untrusted mint. -/
theorem untrusted_mint_rejected_before_lock_witness :
    (validate_token_format ["https://mint.minibits.cash/Bitcoin"]
      (fun _ => .ok ⟨"https://evil.example", [⟨"k", 8⟩]⟩) "cashuAxyz" true).1 = false ∧
    ∀ initialized, ∃ r, receive_token initialized ["https://mint.minibits.cash/Bitcoin"]
      (fun _ => .ok ⟨"https://evil.example", [⟨"k", 8⟩]⟩) "cashuAxyz" = .early r ∧
      r.success = false :=
  untrusted_mint_rejected_before_lock ["https://mint.minibits.cash/Bitcoin"]
    (fun _ => .ok ⟨"https://evil.example", [⟨"k", 8⟩]⟩) "cashuAxyz"
    ⟨"https://evil.example", [⟨"k", 8⟩]⟩ rfl (by decide) (by decide)

/-- Witness for `empty_proof_list_rejected` at a concrete empty token. -/
theorem empty_proof_list_rejected_witness :
    validate_token_format [] (fun _ => .ok ⟨"m", []⟩) "cashuAabc" true
      = (false, some "Token contains no proofs") ∧
    get_token_amount (fun _ => .ok ⟨"m", []⟩) "cashuAabc"
      = (0, some "Token contains no proofs") :=
  empty_proof_list_rejected [] (fun _ => .ok ⟨"m", []⟩) "cashuAabc" ⟨"m", []⟩ true
    (by decide) rfl rfl

/-- C1: when the first redemption attempt raises a counter-conflict error
(`outputs already signed`), the engine performs exactly one counter-recovery
pass and at most one retry; if the retry raises a counter conflict again, no
second recovery pass happens and the run terminates with `success=false` and
the counter-sync error, logging the token for manual recovery. -/
theorem counter_conflict_single_recovery (env : RedeemEnv) (tokenMint mintUrl m1 : String)
    (h1 : env.attempts 0 = .raised m1) (hc1 : isCounterConflictMsg m1 = true) :
    (redeem_token_internal env tokenMint mintUrl 0 0).recoveryCalls = 1 ∧
    (redeem_token_internal env tokenMint mintUrl 0 0).redeemCalls ≤ 2 ∧
    (∀ m2, env.attempts 1 = .raised m2 → isCounterConflictMsg m2 = true →
      (redeem_token_internal env tokenMint mintUrl 0 0).result = counterSyncResult ∧
      (redeem_token_internal env tokenMint mintUrl 0 0).manualRecoveryLogged = true) := by
  cases hr : env.recoveries 0
  · refine ⟨?_, ?_, ?_⟩ <;>
      simp [redeem_token_internal, h1, hc1, hr]
  · cases h2 : env.attempts 1 with
    | ok a =>
      refine ⟨?_, ?_, ?_⟩ <;>
        simp [redeem_token_internal, redeem_token_internal_retry, h1, hc1, hr, h2,
          redeem_success_trace]
    | raised m2' =>
      by_cases hc2 : isCounterConflictMsg m2' = true
      · refine ⟨?_, ?_, ?_⟩ <;>
          simp [redeem_token_internal, redeem_token_internal_retry, h1, hc1, hr, h2, hc2]
      · refine ⟨?_, ?_, ?_⟩ <;>
          simp [redeem_token_internal, redeem_token_internal_retry, h1, hc1, hr, h2, hc2]

/-- Witness for `counter_conflict_single_recovery`: both attempts raise the
library's counter-conflict message and the recovery pass succeeds. -/
theorem counter_conflict_single_recovery_witness :
    (redeem_token_internal
        ⟨fun _ => .raised "Mint Error: outputs have already been signed before",
         fun _ => true⟩ "" "https://mint.minibits.cash/Bitcoin" 0 0).recoveryCalls = 1 ∧
    (redeem_token_internal
        ⟨fun _ => .raised "Mint Error: outputs have already been signed before",
         fun _ => true⟩ "" "https://mint.minibits.cash/Bitcoin" 0 0).redeemCalls ≤ 2 ∧
    (∀ m2, (⟨fun _ => .raised "Mint Error: outputs have already been signed before",
         fun _ => true⟩ : RedeemEnv).attempts 1 = .raised m2 →
      isCounterConflictMsg m2 = true →
      (redeem_token_internal
        ⟨fun _ => .raised "Mint Error: outputs have already been signed before",
         fun _ => true⟩ "" "https://mint.minibits.cash/Bitcoin" 0 0).result
          = counterSyncResult ∧
      (redeem_token_internal
        ⟨fun _ => .raised "Mint Error: outputs have already been signed before",
         fun _ => true⟩ "" "https://mint.minibits.cash/Bitcoin" 0 0).manualRecoveryLogged
          = true) :=
  counter_conflict_single_recovery
    ⟨fun _ => .raised "Mint Error: outputs have already been signed before", fun _ => true⟩
    "" "https://mint.minibits.cash/Bitcoin"
    "Mint Error: outputs have already been signed before" rfl (by decide)

/-- C2: in the redeem-before-call FSM, a real (non-sentinel) token whose
backend-reported amount is strictly below the required amount makes
`validate_payment_node` return `payment_validated=false`, `refund=true` and
`refund_token` equal to the original token without attempting redemption, and
`route_after_validation` sends the run to `end`, so the `agent` node (the LLM
invocation) is never reached. -/
theorem insufficient_amount_refunds_and_ends (debugMode : Bool) (tok : String)
    (numHuman : Nat) (resp : CheckResponse) (redeemOk : Bool)
    (htok : tok ≠ "")
    (hdbg : (strBegins tok "cashu_debug_" || tok == "debug") = false)
    (hsc : resp.statusCode = 200) (hvalid : resp.valid = true) (hspent : resp.spent = false)
    (hlt : resp.amount < get_required_amount debugMode "plebchat" (decide (numHuman ≤ 1))) :
    validate_payment_node debugMode (some tok) numHuman (.http resp) redeemOk
      = { payment_validated := false, payment_redeemed := false, refund := true,
          refund_token := some tok,
          error := some ("Payment validation failed: Insufficient amount: "
            ++ toString resp.amount ++ " < "
            ++ toString (get_required_amount debugMode "plebchat" (decide (numHuman ≤ 1)))
            ++ " sats required") } ∧
    route_after_validation
      (some (validate_payment_node debugMode (some tok) numHuman
        (.http resp) redeemOk).payment_validated) = "end" := by
  have hnode : validate_payment_node debugMode (some tok) numHuman (.http resp) redeemOk
      = { payment_validated := false, payment_redeemed := false, refund := true,
          refund_token := some tok,
          error := some ("Payment validation failed: Insufficient amount: "
            ++ toString resp.amount ++ " < "
            ++ toString (get_required_amount debugMode "plebchat" (decide (numHuman ≤ 1)))
            ++ " sats required") } := by
    simp only [validate_payment_node, htok, hdbg, validate_token_with_backend, hsc, hvalid,
      hspent, hlt]
    simp [hlt]
    rw [← String.append_assoc]
    rfl
  exact ⟨hnode, by rw [hnode]; rfl⟩

/-- Witness for `insufficient_amount_refunds_and_ends`: a 0-sat token against
the 1-sat debug price on a first message. -/
theorem insufficient_amount_refunds_and_ends_witness :
    validate_payment_node true (some "cashuAbc") 1 (.http ⟨200, true, false, 0, none⟩) true
      = { payment_validated := false, payment_redeemed := false, refund := true,
          refund_token := some "cashuAbc",
          error := some ("Payment validation failed: Insufficient amount: "
            ++ toString (0 : Nat) ++ " < "
            ++ toString (get_required_amount true "plebchat" (decide ((1 : Nat) ≤ 1)))
            ++ " sats required") } ∧
    route_after_validation
      (some (validate_payment_node true (some "cashuAbc") 1
        (.http ⟨200, true, false, 0, none⟩) true).payment_validated) = "end" :=
  insufficient_amount_refunds_and_ends true "cashuAbc" 1 ⟨200, true, false, 0, none⟩ true
    (by decide) (by decide) rfl rfl rfl (by decide)

/-- C6: with the default 60-second window, the verifier rejects as expired any
signed event of the right kind that is strictly more than 60 seconds old (so
an event exactly 61 seconds old is rejected), rejects as from-the-future any
event whose `created_at` exceeds `now + 60`, and accepts an otherwise-valid
event that is exactly 60 seconds old. -/
theorem freshness_window (e : NostrEvent) (now : Int) (url method : String)
    (sha : String → String) (n2h h2n : String → Option String)
    (hkind : e.kind = some 27235) :
    (now - e.created_at > 60 →
      verify_nip98_event (.decoded e) true now url method none sha n2h h2n [] 60
        = { valid := false, error := some "Event expired" }) ∧
    (e.created_at > now + 60 →
      verify_nip98_event (.decoded e) true now url method none sha n2h h2n [] 60
        = { valid := false, error := some "Event from the future" }) ∧
    (∀ pk, now - e.created_at = 60 →
      get_tag_value e.tags "u" = some url → url ≠ "" →
      get_tag_value e.tags "method" = some method → method ≠ "" →
      e.pubkey = some pk → pk ≠ "" →
      (verify_nip98_event (.decoded e) true now url method none sha n2h h2n [] 60).valid
        = true) := by
  refine ⟨?_, ?_, ?_⟩
  · intro hold
    simp [verify_nip98_event, hkind, hold]
  · intro hfut
    have hnot : ¬ now - e.created_at > 60 := by omega
    simp [verify_nip98_event, hkind, hnot, hfut]
  · intro pk h60 hu hune hm hmne hpk hpkne
    have hnot : ¬ now - e.created_at > 60 := by omega
    have hnof : ¬ e.created_at > now + 60 := by omega
    simp [verify_nip98_event, hkind, hnot, hnof, hu, hune, hm, hmne, hpk, hpkne]

/-- Witness for `freshness_window`: at `now = 1000`, an event 61 seconds old
is expired, one dated `now + 61` is from the future, and one exactly 60
seconds old passes. -/
theorem freshness_window_witness :
    (1000 - (939 : Int) > 60 →
      verify_nip98_event
        (.decoded ⟨some 27235, 939, [["u", "http://a"], ["method", "GET"]], some "pk"⟩)
        true 1000 "http://a" "GET" none (fun _ => "") (fun _ => none) (fun _ => none) [] 60
        = { valid := false, error := some "Event expired" }) ∧
    ((1061 : Int) > 1000 + 60 →
      verify_nip98_event
        (.decoded ⟨some 27235, 1061, [["u", "http://a"], ["method", "GET"]], some "pk"⟩)
        true 1000 "http://a" "GET" none (fun _ => "") (fun _ => none) (fun _ => none) [] 60
        = { valid := false, error := some "Event from the future" }) ∧
    (verify_nip98_event
        (.decoded ⟨some 27235, 940, [["u", "http://a"], ["method", "GET"]], some "pk"⟩)
        true 1000 "http://a" "GET" none (fun _ => "") (fun _ => none) (fun _ => none) [] 60).valid
      = true :=
  ⟨(freshness_window ⟨some 27235, 939, [["u", "http://a"], ["method", "GET"]], some "pk"⟩
      1000 "http://a" "GET" (fun _ => "") (fun _ => none) (fun _ => none) rfl).1,
   (freshness_window ⟨some 27235, 1061, [["u", "http://a"], ["method", "GET"]], some "pk"⟩
      1000 "http://a" "GET" (fun _ => "") (fun _ => none) (fun _ => none) rfl).2.1,
   (freshness_window ⟨some 27235, 940, [["u", "http://a"], ["method", "GET"]], some "pk"⟩
      1000 "http://a" "GET" (fun _ => "") (fun _ => none) (fun _ => none) rfl).2.2 "pk"
      (by decide) rfl (by decide) rfl (by decide) rfl (by decide)⟩

/-- C4 counterexample: the specification's normalization removes one trailing
slash from each side, under which `http://a//` and `http://a` still differ, so
the claim predicts a URL-mismatch rejection; the source compares after
`rstrip('/')` (all trailing slashes) and accepts this event. -/
theorem url_one_slash_normalization_refuted :
    specStripOneTrailingSlash "http://a//" ≠ specStripOneTrailingSlash "http://a" ∧
    verify_nip98_event
      (.decoded { kind := some 27235, created_at := 1000,
                  tags := [["u", "http://a//"], ["method", "GET"]],
                  pubkey := some "ab" })
      true 1000 "http://a" "GET" none (fun _ => "") (fun _ => none) (fun _ => none) [] 60
      = { valid := true, pubkey := some "ab", npub := none } := by
  decide

/-- C4 amended: the verifier strips ALL trailing slashes from the `u` tag and
the request URL and, for an event passing every other check, rejects with the
URL-mismatch error exactly when those stripped values differ; in particular
two URLs differing only by a single trailing slash are accepted as equal. -/
theorem url_rstrip_normalization (e : NostrEvent) (now : Int) (url method : String)
    (sha : String → String) (n2h h2n : String → Option String) (eu pk : String)
    (hkind : e.kind = some 27235)
    (hfresh : now - e.created_at ≤ 60) (hfut : e.created_at ≤ now + 60)
    (hu : get_tag_value e.tags "u" = some eu) (hune : eu ≠ "")
    (hm : get_tag_value e.tags "method" = some method) (hmne : method ≠ "")
    (hpk : e.pubkey = some pk) (hpkne : pk ≠ "") :
    (rstripSlashes eu ≠ rstripSlashes url →
      verify_nip98_event (.decoded e) true now url method none sha n2h h2n [] 60
        = { valid := false, error := some ("URL mismatch: " ++ eu ++ " != " ++ url) }) ∧
    (rstripSlashes eu = rstripSlashes url →
      (verify_nip98_event (.decoded e) true now url method none sha n2h h2n [] 60).valid
        = true) ∧
    rstripSlashes (url ++ "/") = rstripSlashes url := by
  have hnot : ¬ now - e.created_at > 60 := by omega
  have hnof : ¬ e.created_at > now + 60 := by omega
  refine ⟨?_, ?_, rstripSlashes_append_slash url⟩
  · intro hne
    simp [verify_nip98_event, hkind, hnot, hnof, hu, hune, hne]
  · intro heq
    simp [verify_nip98_event, hkind, hnot, hnof, hu, hune, heq, hm, hmne, hpk, hpkne]

/-- Witness for `url_rstrip_normalization`: the `u` tag `http://a/` against
the request URL `http://a` is accepted, while `http://b` is rejected with the
URL-mismatch error. -/
theorem url_rstrip_normalization_witness :
    (rstripSlashes "http://a/" ≠ rstripSlashes "http://a" →
      verify_nip98_event
        (.decoded ⟨some 27235, 1000, [["u", "http://a/"], ["method", "GET"]], some "ab"⟩)
        true 1000 "http://a" "GET" none (fun _ => "") (fun _ => none) (fun _ => none) [] 60
        = { valid := false,
            error := some ("URL mismatch: " ++ "http://a/" ++ " != " ++ "http://a") }) ∧
    (rstripSlashes "http://a/" = rstripSlashes "http://a" →
      (verify_nip98_event
        (.decoded ⟨some 27235, 1000, [["u", "http://a/"], ["method", "GET"]], some "ab"⟩)
        true 1000 "http://a" "GET" none (fun _ => "") (fun _ => none) (fun _ => none)
        [] 60).valid = true) ∧
    rstripSlashes ("http://a" ++ "/") = rstripSlashes "http://a" :=
  url_rstrip_normalization
    ⟨some 27235, 1000, [["u", "http://a/"], ["method", "GET"]], some "ab"⟩
    1000 "http://a" "GET" (fun _ => "") (fun _ => none) (fun _ => none) "http://a/" "ab"
    rfl (by decide) (by decide) rfl (by decide) rfl (by decide) rfl (by decide)

/-- Helper: `mathCeilDiv` computes the exact rational ceiling for a positive
divisor. -/
theorem mathCeilDiv_eq_ceil (a : Int) (b : Nat) (hb : 0 < b) :
    mathCeilDiv a (b : Int) = ⌈(a : ℚ) / (b : ℚ)⌉ := by
  unfold mathCeilDiv
  have hfd : Int.fdiv (-a) (b : Int) = (-a) / (b : Int) :=
    Int.fdiv_eq_ediv _ (by positivity)
  have hfl : ⌊(((-a : Int) : ℚ) / ((b : Nat) : ℚ))⌋ = (-a) / (b : Int) :=
    Rat.floor_intCast_div_natCast (-a) b
  have hneg : (((-a : Int) : ℚ) / ((b : Nat) : ℚ)) = -((a : ℚ) / (b : ℚ)) := by
    push_cast
    ring
  rw [hfd, ← hfl, hneg, Int.floor_neg, neg_neg]

/-- C7: for every positive amount `a` the estimated Lightning fee is
`max(ceil(a * fee_ppm / 1_000_000), 2)` with the default `fee_ppm = 10000`,
hence always at least 2 sats, and when a payout proceeds past its guards the
net amount requested from the LNURL callback is exactly `a` minus this fee. -/
theorem fee_formula_and_net_amount (a : Int) (ha : 0 < a) :
    estimate_lightning_fee a 10000 = max ⌈((a * 10000 : Int) : ℚ) / 1000000⌉ 2 ∧
    2 ≤ estimate_lightning_fee a 10000 ∧
    (∀ addr balance, addr ≠ "" → a ≤ balance →
      estimate_lightning_fee a 10000 < a →
      payout_to_lightning true addr balance (some a) none
        = .locked a (a - estimate_lightning_fee a 10000) ∧
      payout_invoice_request_msat (a - estimate_lightning_fee a 10000)
        = (a - estimate_lightning_fee a 10000) * 1000) := by
  have h2 : (2 : Int) ≤ estimate_lightning_fee a 10000 := by
    simp [estimate_lightning_fee]
  refine ⟨?_, h2, ?_⟩
  · have h := mathCeilDiv_eq_ceil (a * 10000) 1000000 (by norm_num)
    push_cast at h
    simp only [estimate_lightning_fee]
    rw [h]
    push_cast
    rfl
  · intro addr balance haddr hbal hfee
    have hle : ¬ a ≤ 0 := by omega
    have hgt : ¬ a > balance := by omega
    have hfe : ¬ a ≤ estimate_lightning_fee a 10000 := not_le.mpr hfee
    exact ⟨by simp [payout_to_lightning, haddr, hle, hgt, hfe], rfl⟩

/-- Witness for `fee_formula_and_net_amount` at `a = 1000` (fee 10, net 990). -/
theorem fee_formula_and_net_amount_witness :
    estimate_lightning_fee 1000 10000
      = max ⌈(((1000 * 10000 : Int)) : ℚ) / 1000000⌉ 2 ∧
    2 ≤ estimate_lightning_fee 1000 10000 ∧
    (payout_to_lightning true "op@example.com" 1000 (some 1000) none
      = .locked 1000 (1000 - estimate_lightning_fee 1000 10000) ∧
     payout_invoice_request_msat (1000 - estimate_lightning_fee 1000 10000)
      = (1000 - estimate_lightning_fee 1000 10000) * 1000) :=
  ⟨(fee_formula_and_net_amount 1000 (by decide)).1,
   (fee_formula_and_net_amount 1000 (by decide)).2.1,
   (fee_formula_and_net_amount 1000 (by decide)).2.2 "op@example.com" 1000
     (by decide) (by decide) (by decide)⟩

/-- C9: a positive payout amount that does not exceed the estimated fee is
rejected with the amount-too-small failure before the redemption lock is taken
and before any network call (the `.early` constructor covers exactly the
returns made before the `async with` block), so the wallet state is untouched;
in particular 1-sat and 2-sat payouts always fail this way, the fee floor
being 2 sats. -/
theorem payout_below_fee_rejected (addr : String) (balance a : Int)
    (haddr : addr ≠ "") (ha : 0 < a) (hbal : a ≤ balance)
    (hfee : a ≤ estimate_lightning_fee a 10000) :
    payout_to_lightning true addr balance (some a) none
      = .early { success := false,
                 error := some ("Amount too small to cover estimated fee ("
                   ++ toString (estimate_lightning_fee a 10000) ++ " sats)") } ∧
    (∀ b1 : Int, 1 ≤ b1 → payout_to_lightning true addr b1 (some 1) none
      = .early { success := false,
                 error := some "Amount too small to cover estimated fee (2 sats)" }) ∧
    (∀ b2 : Int, 2 ≤ b2 → payout_to_lightning true addr b2 (some 2) none
      = .early { success := false,
                 error := some "Amount too small to cover estimated fee (2 sats)" }) := by
  refine ⟨?_, ?_, ?_⟩
  · have hle : ¬ a ≤ 0 := by omega
    have hgt : ¬ a > balance := by omega
    simp [payout_to_lightning, haddr, hle, hgt, hfee]
  · intro b1 hb1
    have hE : estimate_lightning_fee 1 10000 = 2 := by decide
    have hgt : ¬ (1 : Int) > b1 := by omega
    simp [payout_to_lightning, haddr, hgt, hE]
    decide
  · intro b2 hb2
    have hE : estimate_lightning_fee 2 10000 = 2 := by decide
    have hgt : ¬ (2 : Int) > b2 := by omega
    simp [payout_to_lightning, haddr, hgt, hE]
    decide

/-- Witness for `payout_below_fee_rejected` at a 2-sat payout with a 10-sat
balance. -/
theorem payout_below_fee_rejected_witness :
    payout_to_lightning true "op@example.com" 10 (some 2) none
      = .early { success := false,
                 error := some ("Amount too small to cover estimated fee ("
                   ++ toString (estimate_lightning_fee 2 10000) ++ " sats)") } ∧
    (∀ b1 : Int, 1 ≤ b1 →
      payout_to_lightning true "op@example.com" b1 (some 1) none
        = .early { success := false,
                   error := some "Amount too small to cover estimated fee (2 sats)" }) ∧
    (∀ b2 : Int, 2 ≤ b2 →
      payout_to_lightning true "op@example.com" b2 (some 2) none
        = .early { success := false,
                   error := some "Amount too small to cover estimated fee (2 sats)" }) :=
  payout_below_fee_rejected "op@example.com" 10 2 (by decide) (by decide) (by decide)
    (by decide)

end PlebChat
